import Mathlib

/-!
Verification of the motivation-watch orbital/timer core.

The definitions below are a shallow embedding of the TypeScript source:
  * `Sim`            — the animation-loop state of `SolarSystemView` (both the
                       native and the web variant share the same loop body).
  * `scaleDistance`, `planetPosition`, `asteroidAngle`, `asteroidPosition`,
    `moonOffset`     — the orbital model of `SolarSystemView`.
  * `select`         — the planet selection toggle of `SolarSystemView`.
  * `PomodoroLoop`   — the continuous-loop PomodoroTimer variant
                       (`unnamed/part_003`).
  * `PomodoroOneShot`— the PomodoroTimer variant in
                       `src/components/PomodoroTimer.tsx`, which stops at the
                       end of a break session.
  * `formatTime`     — the MM:SS display formatter shared by both timers.

JavaScript numbers are modelled as `ℚ` where the code only adds, subtracts,
multiplies and compares, and as `ℝ` where trigonometry or real powers occur.
-/

/-! ## Simulation driver (`SolarSystemView` animation loop) -/

namespace Sim

/-- Animation state of `SolarSystemView`: `useState` hooks
`time`, `speed`, `isPaused`. -/
structure State where
  time : ℚ
  speed : ℚ
  isPaused : Bool
deriving DecidableEq

/-- Initial hook values: `useState(0)`, `useState(1)`, `useState(false)`. -/
def initState : State := { time := 0, speed := 1, isPaused := false }

/-- One firing of the 16ms interval callback.  The effect installs no interval
at all while `isPaused` (`if (isPaused) return;`), so a paused tick is the
identity; otherwise the callback runs `setTime(t => t + 0.008 * speed)`. -/
def tick (s : State) : State :=
  if s.isPaused then s else { s with time := s.time + 0.008 * s.speed }

/-- User events reaching the driver state. -/
inductive Event
  | tick
  | setSpeed (v : ℚ)
  | togglePause

/-- `onValueChange={setSpeed}` stores the raw value; the play/pause button
runs `setIsPaused(!isPaused)`. -/
def applyEvent : Event → State → State
  | .tick, s => tick s
  | .setSpeed v, s => { s with speed := v }
  | .togglePause, s => { s with isPaused := !s.isPaused }

/-- The speed slider is declared with `minimumValue={0.1}` and
`maximumValue={10}`, so the values it can deliver to `setSpeed` lie in
that interval; the other events carry no payload. -/
def ValidEvent : Event → Prop
  | .setSpeed v => 1/10 ≤ v ∧ v ≤ 10
  | _ => True

/-- States reachable from the initial hook values through UI events. -/
inductive Reachable : State → Prop
  | init : Reachable initState
  | step : ∀ s e, Reachable s → ValidEvent e → Reachable (applyEvent e s)

end Sim

/-! ## Selection toggle (`SolarSystemView` planet `onPress`) -/

/-- Planet `onPress` handler: `setSelectedPlanet(isSelected ? null : planet)`
with `isSelected = selectedPlanet?.name === planet.name`; the selection is
keyed by the planet's (unique) name. -/
def select (sel : Option String) (id : String) : Option String :=
  if sel = some id then none else some id

/-! ## Pomodoro timers -/

/-- `type SessionType = 'work' | 'break'` (both timer variants). -/
inductive SessionType
  | work
  | brk
deriving DecidableEq

/-- `type TimerState = 'idle' | 'running' | 'paused' | 'completed'`
(both timer variants; `completed` is declared but never assigned). -/
inductive TimerState
  | idle
  | running
  | paused
  | completed
deriving DecidableEq

namespace PomodoroLoop

/-- State of the continuous-loop PomodoroTimer (`unnamed/part_003`): the three
`useState` hooks plus the four duration refs. Durations are minutes,
`timeRemaining` is seconds. -/
structure State where
  sessionType : SessionType
  timerState : TimerState
  timeRemaining : ℚ
  nextWorkDuration : ℚ
  nextBreakDuration : ℚ
  currentWorkDuration : ℚ
  currentBreakDuration : ℚ
deriving DecidableEq

/-- Initial hook/ref values for given `workDuration`/`breakDuration` props. -/
def initState (workDuration breakDuration : ℚ) : State :=
  { sessionType := .work
    timerState := .idle
    timeRemaining := workDuration * 60
    nextWorkDuration := workDuration
    nextBreakDuration := breakDuration
    currentWorkDuration := workDuration
    currentBreakDuration := breakDuration }

/-- `startTimer`: from idle, snapshot the next durations into the current
refs; in every case enter the running state. -/
def startTimer (s : State) : State :=
  if s.timerState = .idle then
    { s with currentWorkDuration := s.nextWorkDuration
             currentBreakDuration := s.nextBreakDuration
             timerState := .running }
  else { s with timerState := .running }

/-- `pauseTimer`: `setTimerState('paused')`. -/
def pauseTimer (s : State) : State := { s with timerState := .paused }

/-- `resetTimer`: back to idle work session with the latest work duration. -/
def resetTimer (s : State) : State :=
  { s with timerState := .idle
           sessionType := .work
           currentWorkDuration := s.nextWorkDuration
           timeRemaining := s.nextWorkDuration * 60 }

/-- A change of the `workDuration`/`breakDuration` props: the first effect
stores them into the next-duration refs; the display effect then refreshes
`timeRemaining` from the next ref, but only while idle. -/
def setDurations (workDuration breakDuration : ℚ) (s : State) : State :=
  let s1 := { s with nextWorkDuration := workDuration
                     nextBreakDuration := breakDuration }
  if s1.timerState = .idle then
    { s1 with timeRemaining :=
        (if s1.sessionType = .work then workDuration else breakDuration) * 60 }
  else s1

/-- One firing of the 100ms interval callback with measured elapsed `delta`
seconds.  The interval only exists while running.  Returns the new state and
the number of `onComplete` invocations performed by this firing. -/
def tick (delta : ℚ) (s : State) : State × ℕ :=
  if s.timerState = .running then
    let newTime := s.timeRemaining - delta
    if newTime ≤ 0 then
      match s.sessionType with
      | .work =>
        ({ s with sessionType := .brk
                  currentBreakDuration := s.nextBreakDuration
                  timeRemaining := s.nextBreakDuration * 60 }, 1)
      | .brk =>
        ({ s with sessionType := .work
                  currentWorkDuration := s.nextWorkDuration
                  timeRemaining := s.nextWorkDuration * 60 }, 1)
    else ({ s with timeRemaining := newTime }, 0)
  else (s, 0)

end PomodoroLoop

namespace PomodoroOneShot

/-- State of the PomodoroTimer in `src/components/PomodoroTimer.tsx`:
just the three `useState` hooks (durations are read from props). -/
structure State where
  sessionType : SessionType
  timerState : TimerState
  timeRemaining : ℚ
deriving DecidableEq

/-- One firing of the 100ms interval callback with props
`workDuration`/`breakDuration` (minutes) and measured elapsed `delta`
seconds.  At the end of a work session it switches to break and keeps
running; at the end of a break session it sets the timer state to idle and
resets to a work session.  Returns the new state and the number of
`onComplete` invocations. -/
def tick (workDuration breakDuration delta : ℚ) (s : State) : State × ℕ :=
  if s.timerState = .running then
    let newTime := s.timeRemaining - delta
    if newTime ≤ 0 then
      match s.sessionType with
      | .work =>
        ({ s with sessionType := .brk
                  timeRemaining := breakDuration * 60 }, 1)
      | .brk =>
        ({ sessionType := .work
           timerState := .idle
           timeRemaining := workDuration * 60 }, 1)
    else ({ s with timeRemaining := newTime }, 0)
  else (s, 0)

end PomodoroOneShot

/-! ## Time display formatter -/

/-- JavaScript `s.padStart(2, '0')`. -/
def padStart2 (s : String) : String :=
  if s.length < 2 then String.mk (List.replicate (2 - s.length) '0') ++ s else s

/-- `formatTime` from both PomodoroTimer variants:
`Math.floor(Math.max(0, seconds))`, then minutes/seconds with two-digit
zero padding. -/
def formatTime (seconds : ℚ) : String :=
  let totalSecs : ℕ := (max 0 seconds).floor.toNat
  let mins := totalSecs / 60
  let secs := totalSecs % 60
  padStart2 (toString mins) ++ ":" ++ padStart2 (toString secs)

/-- Modelled from the spec sentence for C10: the zero-padded MM:SS string of
a total-seconds count. -/
def mmss (n : ℕ) : String :=
  padStart2 (toString (n / 60)) ++ ":" ++ padStart2 (toString (n % 60))

/-! ## Orbital model (`SolarSystemView`, native and web variants) -/

/-- `const scaleDistance = (d: number) => 35 + Math.pow(d, 0.45) * 3.5;`
(identical in `SolarSystemView.tsx` and `SolarSystemView.web.tsx`). -/
noncomputable def scaleDistance (d : ℝ) : ℝ := 35 + d ^ (0.45 : ℝ) * 3.5

/-- One entry of the `PLANETS` array of `SolarSystemView`. -/
structure PlanetData where
  name : String
  color : String
  size : ℝ
  distance : ℝ
  speed : ℝ
  moons : ℕ
  hasRings : Bool := false
  dayLength : String := ""
  year : String := ""

/-- The `PLANETS` array (behavioural fields; the descriptive strings are
carried verbatim). -/
noncomputable def PLANETS : List PlanetData :=
  [ { name := "Mercury", color := "#b5b5b5", size := 2.4, distance := 58,
      speed := 4.15, moons := 0, dayLength := "59 days", year := "88 days" },
    { name := "Venus", color := "#e6c87a", size := 6, distance := 108,
      speed := 1.62, moons := 0, dayLength := "243 days", year := "225 days" },
    { name := "Earth", color := "#6b93d6", size := 6.4, distance := 150,
      speed := 1, moons := 1, dayLength := "24 hours", year := "365 days" },
    { name := "Mars", color := "#c1440e", size := 3.4, distance := 228,
      speed := 0.53, moons := 2, dayLength := "24.6 hours", year := "687 days" },
    { name := "Jupiter", color := "#d8ca9d", size := 35, distance := 778,
      speed := 0.084, moons := 95, dayLength := "10 hours", year := "12 years" },
    { name := "Saturn", color := "#f4d59e", size := 29, distance := 1427,
      speed := 0.034, moons := 146, hasRings := true,
      dayLength := "10.7 hours", year := "29 years" },
    { name := "Uranus", color := "#d1e7e7", size := 13, distance := 2871,
      speed := 0.012, moons := 28, dayLength := "17 hours", year := "84 years" },
    { name := "Neptune", color := "#5b5ddf", size := 12, distance := 4497,
      speed := 0.006, moons := 16, dayLength := "16 hours", year := "165 years" } ]

/-- Planet render position in `SolarSystemView`:
`orbitRadius = scaleDistance(planet.distance)`,
`angle = time * planet.speed * 0.3`,
`x = cos(angle) * orbitRadius`, `y = sin(angle) * orbitRadius`. -/
noncomputable def planetPosition (p : PlanetData) (t : ℝ) : ℝ × ℝ :=
  let orbitRadius := scaleDistance p.distance
  let angle := t * p.speed * 0.3
  (Real.cos angle * orbitRadius, Real.sin angle * orbitRadius)

/-- Modelled from the spec for C3: the fixed scalar tying simulated seconds
to angular progress (reference value 0.3). -/
noncomputable def ORBIT_RATE_CONSTANT : ℝ := 0.3

/-- Modelled from the spec for C3:
`angle = simulationTime * angularSpeedCoefficient * ORBIT_RATE_CONSTANT`. -/
noncomputable def specAngle (coeff t : ℝ) : ℝ := t * coeff * ORBIT_RATE_CONSTANT

/-- Modelled from the spec for C3: `x = cos(angle) * scaledRadius;
y = sin(angle) * scaledRadius` with `scaledRadius = distanceScale(baseDistance)`. -/
noncomputable def specPlanetPosition (p : PlanetData) (t : ℝ) : ℝ × ℝ :=
  (Real.cos (specAngle p.speed t) * scaleDistance p.distance,
   Real.sin (specAngle p.speed t) * scaleDistance p.distance)

/-- Initial phase of asteroid-belt particle `i` (of 200) in `SolarSystemView`:
`angle: (i / 200) * Math.PI * 2 + Math.random() * 0.3`, where `r` stands for
the `Math.random()` draw in `[0, 1)`. -/
noncomputable def asteroidAngle (i : ℕ) (r : ℝ) : ℝ :=
  ((i : ℝ) / 200) * Real.pi * 2 + r * 0.3

/-- Asteroid render position in `SolarSystemView`:
`angle = asteroid.angle + time * asteroid.speed`, then
`x = cos(angle) * asteroid.distance`, `y = sin(angle) * asteroid.distance`. -/
noncomputable def asteroidPosition (angle dist speed t : ℝ) : ℝ × ℝ :=
  (Real.cos (angle + t * speed) * dist, Real.sin (angle + t * speed) * dist)

/-- Earth's moon offset in `SolarSystemView`:
`(cos(time * 13) * (displaySize + 6), sin(time * 13) * (displaySize + 6))`. -/
noncomputable def moonOffset (displaySize t : ℝ) : ℝ × ℝ :=
  (Real.cos (t * 13) * (displaySize + 6), Real.sin (t * 13) * (displaySize + 6))

/-! ## Claim theorems -/

/-- C3: for every planet body and every simulation time, the rendered
position is `(cos(t * speed * 0.3) * scaleDistance(distance),
sin(t * speed * 0.3) * scaleDistance(distance))` — the spec's
`positionOf` formula — and it is a pure function of only the body's
`speed` and `distance` fields and the time. -/
theorem planet_position_formula :
    (∀ (p : PlanetData) (t : ℝ), planetPosition p t = specPlanetPosition p t) ∧
    (∀ (p : PlanetData) (t : ℝ),
      planetPosition p t =
        (Real.cos (t * p.speed * 0.3) * scaleDistance p.distance,
         Real.sin (t * p.speed * 0.3) * scaleDistance p.distance)) ∧
    (∀ (p q : PlanetData) (t : ℝ), p.speed = q.speed → p.distance = q.distance →
      planetPosition p t = planetPosition q t) := by
  refine ⟨fun p t => rfl, fun p t => rfl, fun p q t hs hd => ?_⟩
  simp only [planetPosition, hs, hd]

/-- Witness for C3: two bodies agreeing on `speed` and `distance` get the
same position even when every other field differs. -/
theorem planet_position_formula_witness :
    planetPosition
      { name := "A", color := "x", size := 1, distance := 58, speed := 4.15,
        moons := 0 } 0
      = planetPosition
      { name := "B", color := "y", size := 2, distance := 58, speed := 4.15,
        moons := 7 } 0 :=
  planet_position_formula.2.2 _ _ 0 rfl rfl

/-- C6: `scaleDistance` is strictly increasing on nonnegative inputs, and
`scaleDistance 0 = 35` (the BASE_OFFSET). -/
theorem scale_distance_strict_mono_and_base :
    (∀ d1 d2 : ℝ, 0 ≤ d1 → d1 < d2 → scaleDistance d1 < scaleDistance d2) ∧
    scaleDistance 0 = 35 := by
  constructor
  · intro d1 d2 h0 h12
    have hp : d1 ^ (0.45 : ℝ) < d2 ^ (0.45 : ℝ) :=
      Real.rpow_lt_rpow h0 h12 (by norm_num)
    unfold scaleDistance
    nlinarith
  · unfold scaleDistance
    rw [Real.zero_rpow (by norm_num)]
    ring

/-- Witness for C6 at `d1 = 0 < d2 = 1`. -/
theorem scale_distance_strict_mono_and_base_witness :
    (0 : ℝ) ≤ 0 ∧ (0 : ℝ) < 1 ∧ scaleDistance 0 < scaleDistance 1 :=
  ⟨le_refl 0, zero_lt_one,
    scale_distance_strict_mono_and_base.1 0 1 (le_refl 0) zero_lt_one⟩

/-- C7: for every body name in the planet list, selection is a toggle:
selecting the selected body clears the selection; from a state where the
body is not selected, selecting it twice returns to no selection; and
selecting it and then a different body leaves exactly the other body
selected. -/
theorem selection_toggle :
    ∀ id : String, id ∈ PLANETS.map PlanetData.name →
      ∀ (sel : Option String) (other : String),
      select (some id) id = none ∧
      (sel ≠ some id → select sel id = some id ∧ select (select sel id) id = none) ∧
      (other ≠ id → select (select sel id) other = some other) := by
  intro id _ sel other
  refine ⟨by simp [select], fun h => ⟨by simp [select, h], by simp [select, h]⟩,
    fun h => ?_⟩
  have h' : id ≠ other := fun hh => h hh.symm
  by_cases hsel : sel = some id
  · simp [select, hsel]
  · simp [select, hsel, h']

/-- Witness for C7: `Earth` is a known body; toggling it off and selecting
`Mars` after `Earth` behave as claimed. -/
theorem selection_toggle_witness :
    "Earth" ∈ PLANETS.map PlanetData.name ∧
    select (some "Earth") "Earth" = none ∧
    select (select none "Earth") "Mars" = some "Mars" := by
  have hm : "Earth" ∈ PLANETS.map PlanetData.name := by simp [PLANETS]
  have h := selection_toggle "Earth" hm none "Mars"
  exact ⟨hm, h.1, h.2.2 (by decide)⟩

/-- C10: `formatTime` renders exactly the zero-padded MM:SS string of
`floor (max 0 seconds)` total seconds; in particular every nonpositive
remaining time displays as `00:00`. -/
theorem format_time_spec :
    ∀ s : ℚ, formatTime s = mmss (max 0 s).floor.toNat ∧
      (s ≤ 0 → formatTime s = "00:00") := by
  intro s
  refine ⟨rfl, fun h => ?_⟩
  have h0 : max 0 s = 0 := max_eq_left h
  show mmss (max 0 s).floor.toNat = "00:00"
  rw [h0]
  rfl

/-- Witness for C10: a negative remaining time renders as `00:00`. -/
theorem format_time_spec_witness :
    (- 5 : ℚ) ≤ 0 ∧ formatTime (- 5) = "00:00" :=
  ⟨by norm_num, (format_time_spec (- 5)).2 (by norm_num)⟩

/-- C2 counterexample: a running tick at the reference 16ms cadence has a
measured real elapsed time of 16/1000 seconds, but the code advances
`time` by the fixed 0.008 × speed, not by elapsed × speed. -/
theorem sim_tick_elapsed_counterexample :
    Sim.initState.isPaused = false ∧
    (Sim.tick Sim.initState).time
      ≠ Sim.initState.time + (16 / 1000 : ℚ) * Sim.initState.speed := by
  refine ⟨rfl, ?_⟩
  norm_num [Sim.tick, Sim.initState]

/-- C2 amended: while running, each tick of the animation loop increases
`time` by the fixed constant `0.008 × speed`, independent of the real
elapsed time between ticks; while paused no interval exists and a tick
leaves the state unchanged. -/
theorem sim_tick_fixed_increment :
    ∀ s : Sim.State,
      (s.isPaused = false → (Sim.tick s).time = s.time + 0.008 * s.speed) ∧
      (s.isPaused = true → Sim.tick s = s) := by
  intro s
  constructor <;> intro h <;> simp [Sim.tick, h]

/-- Witness for C2 amended: the increment of one running tick from the
initial state, and the identity of a paused tick. -/
theorem sim_tick_fixed_increment_witness :
    (Sim.initState.isPaused = false ∧
      (Sim.tick Sim.initState).time
        = Sim.initState.time + 0.008 * Sim.initState.speed) ∧
    ((Sim.applyEvent Sim.Event.togglePause Sim.initState).isPaused = true ∧
      Sim.tick (Sim.applyEvent Sim.Event.togglePause Sim.initState)
        = Sim.applyEvent Sim.Event.togglePause Sim.initState) :=
  ⟨⟨rfl, (sim_tick_fixed_increment Sim.initState).1 rfl⟩,
   ⟨rfl, (sim_tick_fixed_increment _).2 rfl⟩⟩

/-- C8 counterexample: `setSpeed` is the raw `useState` setter; it stores
`-5` as `-5` (not the lower bound 0.1) and `999` as `999` (not the upper
bound 10). -/
theorem set_speed_no_clamp_counterexample :
    (Sim.applyEvent (Sim.Event.setSpeed (- 5)) Sim.initState).speed = - 5 ∧
    ((- 5 : ℚ) ≠ 1 / 10) ∧
    (Sim.applyEvent (Sim.Event.setSpeed 999) Sim.initState).speed = 999 ∧
    ((999 : ℚ) ≠ 10) :=
  ⟨rfl, by norm_num, rfl, by norm_num⟩

/-- C8 amended: `setSpeed` stores its argument unchanged; the clamping to
[0.1, 10] is enforced only by the slider control that feeds it, so for any
value the slider can deliver the stored speed coincides with
`clamp(v, 0.1, 10)`. -/
theorem set_speed_stores_raw_slider_bounded :
    ∀ (s : Sim.State) (v : ℚ),
      (Sim.applyEvent (Sim.Event.setSpeed v) s).speed = v ∧
      (Sim.ValidEvent (Sim.Event.setSpeed v) →
        (Sim.applyEvent (Sim.Event.setSpeed v) s).speed = max (1 / 10) (min v 10)) := by
  intro s v
  refine ⟨rfl, fun hv => ?_⟩
  show v = max (1 / 10) (min v 10)
  rw [min_eq_left hv.2, max_eq_right hv.1]

/-- Witness for C8 amended at the in-range slider value 1. -/
theorem set_speed_stores_raw_slider_bounded_witness :
    Sim.ValidEvent (Sim.Event.setSpeed 1) ∧
    (Sim.applyEvent (Sim.Event.setSpeed 1) Sim.initState).speed
      = max (1 / 10) (min 1 10) := by
  have hv : Sim.ValidEvent (Sim.Event.setSpeed 1) := ⟨by norm_num, by norm_num⟩
  exact ⟨hv, (set_speed_stores_raw_slider_bounded Sim.initState 1).2 hv⟩

/-- C9 counterexample: asteroid index 199 with random draw 9/10 ∈ [0, 1)
gets initial phase `(199/200)·2π + 0.27`, which is not below `2π`. -/
theorem asteroid_angle_counterexample :
    (0 : ℝ) ≤ 9 / 10 ∧ (9 / 10 : ℝ) < 1 ∧
    ¬ asteroidAngle 199 (9 / 10) < 2 * Real.pi := by
  refine ⟨by norm_num, by norm_num, ?_⟩
  unfold asteroidAngle
  push_neg
  push_cast
  nlinarith [Real.pi_lt_d2]

/-- C9 amended: for every asteroid index `i < 200` and random draw
`r ∈ [0, 1)`, the initial phase lies in `[0, 2π + 0.3)` (the random jitter
of up to 0.3 can push the phase of the outermost indices past `2π`). -/
theorem asteroid_angle_range :
    ∀ (i : ℕ) (r : ℝ), i < 200 → 0 ≤ r → r < 1 →
      0 ≤ asteroidAngle i r ∧ asteroidAngle i r < 2 * Real.pi + 0.3 := by
  intro i r hi hr0 hr1
  unfold asteroidAngle
  have hpi := Real.pi_pos
  have hiR : (i : ℝ) < 200 := by exact_mod_cast hi
  have hiR0 : (0 : ℝ) ≤ i := Nat.cast_nonneg i
  constructor
  · have h1 : 0 ≤ ((i : ℝ) / 200) * Real.pi * 2 := by positivity
    nlinarith
  · have key : 0 < (200 - (i : ℝ)) * Real.pi := mul_pos (by linarith) hpi
    nlinarith [key]

/-- Witness for C9 amended at `i = 0`, `r = 0`. -/
theorem asteroid_angle_range_witness :
    (0 : ℕ) < 200 ∧ (0 : ℝ) ≤ 0 ∧ (0 : ℝ) < 1 ∧
    (0 ≤ asteroidAngle 0 0 ∧ asteroidAngle 0 0 < 2 * Real.pi + 0.3) :=
  ⟨by decide, le_refl 0, zero_lt_one,
    asteroid_angle_range 0 0 (by decide) (le_refl 0) zero_lt_one⟩

/-- C1 counterexample: in the PomodoroTimer variant of
`src/components/PomodoroTimer.tsx`, a break session reaching 0 while
running does not keep the timer running: with work=25, break=5, one second
remaining and two seconds elapsed, the tick sets the timer state to idle. -/
theorem pomodoro_oneshot_break_end_counterexample :
    (⟨.brk, .running, 1⟩ : PomodoroOneShot.State).timerState = .running ∧
    (PomodoroOneShot.tick 25 5 2 ⟨.brk, .running, 1⟩).1.timerState = .idle ∧
    TimerState.idle ≠ TimerState.running := by
  refine ⟨rfl, ?_, by decide⟩
  norm_num [PomodoroOneShot.tick]

/-- C1 amended: in the continuous-loop variant (`unnamed/part_003`), a
session boundary (`timeRemaining - delta ≤ 0` while running) flips the
session type, resets `timeRemaining` to the freshly-applied configured
duration of the new session type (which then equals the updated current
duration), keeps the timer running and invokes `onComplete` exactly once.
In the `src/components/PomodoroTimer.tsx` variant the same holds at a
work→break boundary, but a break→work boundary instead sets the timer
state to idle (still resetting to the work duration and invoking
`onComplete` exactly once). -/
theorem pomodoro_session_boundary :
    (∀ (s : PomodoroLoop.State) (delta : ℚ),
      s.timerState = .running → s.timeRemaining - delta ≤ 0 →
      (PomodoroLoop.tick delta s).1.timerState = .running ∧
      (PomodoroLoop.tick delta s).1.sessionType
        = (match s.sessionType with | .work => .brk | .brk => .work) ∧
      (PomodoroLoop.tick delta s).1.timeRemaining
        = (match s.sessionType with
           | .work => s.nextBreakDuration
           | .brk => s.nextWorkDuration) * 60 ∧
      (PomodoroLoop.tick delta s).1.timeRemaining
        = (match (PomodoroLoop.tick delta s).1.sessionType with
           | .work => (PomodoroLoop.tick delta s).1.currentWorkDuration
           | .brk => (PomodoroLoop.tick delta s).1.currentBreakDuration) * 60 ∧
      (PomodoroLoop.tick delta s).2 = 1) ∧
    (∀ (w b delta : ℚ) (s : PomodoroOneShot.State),
      s.timerState = .running → s.timeRemaining - delta ≤ 0 →
      (PomodoroOneShot.tick w b delta s).2 = 1 ∧
      (s.sessionType = .work →
        (PomodoroOneShot.tick w b delta s).1.timerState = .running ∧
        (PomodoroOneShot.tick w b delta s).1.sessionType = .brk ∧
        (PomodoroOneShot.tick w b delta s).1.timeRemaining = b * 60) ∧
      (s.sessionType = .brk →
        (PomodoroOneShot.tick w b delta s).1.timerState = .idle ∧
        (PomodoroOneShot.tick w b delta s).1.sessionType = .work ∧
        (PomodoroOneShot.tick w b delta s).1.timeRemaining = w * 60)) := by
  constructor
  · intro s delta hrun hb
    cases hst : s.sessionType <;>
      simp [PomodoroLoop.tick, hrun, hb, hst]
  · intro w b delta s hrun hb
    cases hst : s.sessionType <;>
      simp [PomodoroOneShot.tick, hrun, hb, hst]

/-- Witness for C1 amended: a concrete work→break boundary in the
continuous-loop variant with work=25, break=5, one second remaining and a
two-second tick: the timer stays running, flips to break, resets to 300
seconds and fires `onComplete` once. -/
theorem pomodoro_session_boundary_witness :
    (⟨.work, .running, 1, 25, 5, 25, 5⟩ : PomodoroLoop.State).timerState
        = .running ∧
    ((1 : ℚ) - 2 ≤ 0) ∧
    ((PomodoroLoop.tick 2 ⟨.work, .running, 1, 25, 5, 25, 5⟩).1.timerState
        = .running ∧
      (PomodoroLoop.tick 2 ⟨.work, .running, 1, 25, 5, 25, 5⟩).1.sessionType
        = .brk ∧
      (PomodoroLoop.tick 2 ⟨.work, .running, 1, 25, 5, 25, 5⟩).2 = 1) := by
  have hb : (⟨.work, .running, 1, 25, 5, 25, 5⟩ :
      PomodoroLoop.State).timeRemaining - 2 ≤ 0 := by norm_num
  have h := pomodoro_session_boundary.1 ⟨.work, .running, 1, 25, 5, 25, 5⟩ 2
    rfl hb
  exact ⟨rfl, by norm_num, h.1, h.2.1, h.2.2.2.2⟩

/-- C4: changing the configured durations while the continuous-loop timer
is running leaves the current countdown (and session/timer state and the
snapshotted current durations) unchanged, and the new values are the ones
applied at the next session boundary; while idle, the displayed remaining
time updates immediately to the new duration of the displayed session
type. -/
theorem pomodoro_duration_change_deferred :
    ∀ (w b : ℚ) (s : PomodoroLoop.State),
      (s.timerState = .running →
        (PomodoroLoop.setDurations w b s).timeRemaining = s.timeRemaining ∧
        (PomodoroLoop.setDurations w b s).timerState = s.timerState ∧
        (PomodoroLoop.setDurations w b s).sessionType = s.sessionType ∧
        (PomodoroLoop.setDurations w b s).currentWorkDuration
          = s.currentWorkDuration ∧
        (PomodoroLoop.setDurations w b s).currentBreakDuration
          = s.currentBreakDuration ∧
        (∀ delta : ℚ, s.timeRemaining - delta ≤ 0 →
          (PomodoroLoop.tick delta (PomodoroLoop.setDurations w b s)).1.timeRemaining
            = (match s.sessionType with | .work => b | .brk => w) * 60)) ∧
      (s.timerState = .idle →
        (PomodoroLoop.setDurations w b s).timeRemaining
          = (if s.sessionType = .work then w else b) * 60) := by
  intro w b s
  constructor
  · intro hrun
    have hni : ¬ s.timerState = TimerState.idle := by
      rw [hrun]; exact fun h => by cases h
    refine ⟨?_, ?_, ?_, ?_, ?_, ?_⟩ <;>
      try simp [PomodoroLoop.setDurations, hni]
    intro delta hb
    cases hst : s.sessionType <;>
      simp [PomodoroLoop.setDurations, PomodoroLoop.tick, hni, hrun, hb, hst]
  · intro hidle
    simp [PomodoroLoop.setDurations, hidle]

/-- Witness for C4: a running work session with 10 seconds remaining;
changing the configured work duration to 50 minutes leaves the countdown
at 10 seconds, and at the boundary the freshly-applied break duration (5
minutes) is used. -/
theorem pomodoro_duration_change_deferred_witness :
    (⟨.work, .running, 10, 25, 5, 25, 5⟩ : PomodoroLoop.State).timerState
        = .running ∧
    (PomodoroLoop.setDurations 50 5
        ⟨.work, .running, 10, 25, 5, 25, 5⟩).timeRemaining = 10 ∧
    ((10 : ℚ) - 10 ≤ 0) ∧
    (PomodoroLoop.tick 10 (PomodoroLoop.setDurations 50 5
        ⟨.work, .running, 10, 25, 5, 25, 5⟩)).1.timeRemaining = 5 * 60 := by
  have h := pomodoro_duration_change_deferred 50 5
    ⟨.work, .running, 10, 25, 5, 25, 5⟩
  exact ⟨rfl, (h.1 rfl).1, by norm_num, (h.1 rfl).2.2.2.2.2 10 (by norm_num)⟩

/-- Along any run of the UI from the initial hook values, the stored speed
stays within the slider bounds [0.1, 10]. -/
theorem sim_reachable_speed_bounds :
    ∀ s : Sim.State, Sim.Reachable s → 1 / 10 ≤ s.speed ∧ s.speed ≤ 10 := by
  intro s h
  induction h with
  | init => exact ⟨by norm_num [Sim.initState], by norm_num [Sim.initState]⟩
  | step s e hr hv ih =>
    cases e with
    | tick =>
      cases hp : s.isPaused <;>
        simpa [Sim.applyEvent, Sim.tick, hp] using ih
    | setSpeed v => exact hv
    | togglePause => simpa [Sim.applyEvent] using ih

/-- C5: in every reachable driver state, if the simulation is paused then
any number of ticks leaves the state — hence `simulationTime` and every
planet, asteroid and moon position — exactly unchanged; and no UI event
(tick, slider speed change, pause toggle) ever decreases `simulationTime`. -/
theorem sim_pause_freezes_and_time_monotone :
    ∀ s : Sim.State, Sim.Reachable s →
      (s.isPaused = true →
        (∀ n : ℕ, Sim.tick^[n] s = s) ∧
        (∀ (n : ℕ) (p : PlanetData),
          planetPosition p ((Sim.tick^[n] s).time : ℝ)
            = planetPosition p (s.time : ℝ)) ∧
        (∀ (n : ℕ) (angle dist speed : ℝ),
          asteroidPosition angle dist speed ((Sim.tick^[n] s).time : ℝ)
            = asteroidPosition angle dist speed (s.time : ℝ)) ∧
        (∀ (n : ℕ) (displaySize : ℝ),
          moonOffset displaySize ((Sim.tick^[n] s).time : ℝ)
            = moonOffset displaySize (s.time : ℝ))) ∧
      (∀ e : Sim.Event, Sim.ValidEvent e → s.time ≤ (Sim.applyEvent e s).time) := by
  intro s hs
  have hspeed := sim_reachable_speed_bounds s hs
  constructor
  · intro hp
    have hiter : ∀ n : ℕ, Sim.tick^[n] s = s := by
      intro n
      induction n with
      | zero => rfl
      | succ n ih => rw [Function.iterate_succ_apply', ih]; simp [Sim.tick, hp]
    exact ⟨hiter, fun n p => by rw [hiter n], fun n a d sp => by rw [hiter n],
      fun n d => by rw [hiter n]⟩
  · intro e hv
    cases e with
    | tick =>
      show s.time ≤ (Sim.tick s).time
      by_cases hp : s.isPaused
      · simp [Sim.tick, hp]
      · have hp' : s.isPaused = false := by simpa using hp
        simp only [Sim.tick, hp', Bool.false_eq_true, if_false]
        nlinarith [hspeed.1]
    | setSpeed v => exact le_refl _
    | togglePause => exact le_refl _

/-- Witness for C5: from the initial state a tick does not decrease time,
and after toggling pause three further ticks leave the state unchanged. -/
theorem sim_pause_freezes_and_time_monotone_witness :
    Sim.initState.time ≤ (Sim.applyEvent Sim.Event.tick Sim.initState).time ∧
    (Sim.applyEvent Sim.Event.togglePause Sim.initState).isPaused = true ∧
    Sim.tick^[3] (Sim.applyEvent Sim.Event.togglePause Sim.initState)
      = Sim.applyEvent Sim.Event.togglePause Sim.initState := by
  have h1 := sim_pause_freezes_and_time_monotone Sim.initState Sim.Reachable.init
  have hr2 : Sim.Reachable (Sim.applyEvent Sim.Event.togglePause Sim.initState) :=
    Sim.Reachable.step _ _ Sim.Reachable.init trivial
  have h2 := sim_pause_freezes_and_time_monotone _ hr2
  exact ⟨h1.2 Sim.Event.tick trivial, rfl, (h2.1 rfl).1 3⟩
